import Mathlib

/-!
Shallow embedding of `imapnotify-rs` (`src/main.rs`) and proofs about its
detection loop, notifier, connection establishment, retry/backoff supervisor
and multi-account orchestrator.

External effects (IMAP session calls, process spawning, the crossbeam scope)
are modelled as oracle functions supplied to each definition; the control flow
around them is translated directly from the Rust source.
-/

namespace ImapNotify

/-- The `Account` struct (config-layer fields that the core reads). -/
structure Account where
  host : String
  port : Nat
  starttls : Bool
  username : String
  password : String
  on_new_mail : String
  on_new_mail_post : Option String
  boxes : List String
  deriving DecidableEq, Repr

/-- An I/O-level error surfaced by a session call (`imap` / `anyhow` errors
collapsed to their message). -/
inductive IoErr
  | err (msg : String)
  deriving DecidableEq, Repr

instance exceptDecEq {ε α : Type} [DecidableEq ε] [DecidableEq α] :
    DecidableEq (Except ε α) := fun a b =>
  match a, b with
  | .error e1, .error e2 =>
    if h : e1 = e2 then .isTrue (congrArg Except.error h)
    else .isFalse fun hh => h (Except.error.inj hh)
  | .error _, .ok _ => .isFalse fun hh => Except.noConfusion hh
  | .ok _, .error _ => .isFalse fun hh => Except.noConfusion hh
  | .ok x, .ok y =>
    if h : x = y then .isTrue (congrArg Except.ok h)
    else .isFalse fun hh => h (Except.ok.inj hh)

/-- A failure of the crossbeam scope itself: either it carries an `anyhow`
error that downcasts, or an unknown panic payload
(`bail!("unexpected threading error: ...")` path). -/
inductive ScopeErr
  | anyhow (msg : String)
  | unknownPanic
  deriving DecidableEq, Repr

/-- An error terminating `idle_loop`: either an I/O error from a session call
(propagated with `?`) or a failure of the command-spawn scope
(lines 101-106 of `main.rs`). -/
inductive IdleErr
  | io (e : IoErr)
  | ctx (e : ScopeErr)
  deriving DecidableEq, Repr

/-- Observable actions of the notifier block (lines 89-99): an attempted
`Command::new("/bin/sh").arg("-c").arg(cmd).spawn()` and the
`eprintln!("Command failed: ...")` warning on a failed spawn. -/
inductive NotifyEv
  | attempted (cmd : String)
  | warned (cmd : String)
  deriving DecidableEq, Repr

/-- Per-iteration oracle for the effects performed inside `idle_loop`:
`session.examine`, `session.uid_search`, `Command::spawn` success, whether the
crossbeam scope itself fails, and the result of `idle()?.wait_keepalive()?`. -/
structure IterEnv where
  examine : String → Except IoErr Unit
  uid_search : String → Except IoErr (List Nat)
  spawn : String → Bool
  scopeFail : Option ScopeErr
  idleWait : Except IoErr Unit

/-- The per-mailbox collection phase of one `idle_loop` iteration
(lines 79-85): for every watched mailbox in order, `examine` it, run
`uid_search("NEW 1:*")`, and union the results into one set. -/
def collectUids (env : IterEnv) (boxes : List String) : Except IoErr (Finset Nat) :=
  boxes.foldlM (fun uids mbox => do
    let _ ← env.examine mbox
    let found ← env.uid_search mbox
    pure (uids ∪ found.toFinset)) ∅

/-- `uids.iter().cloned().max().unwrap_or(0)` (line 111). -/
def maxOr0 (s : Finset Nat) : Nat := s.max.unbot' 0

/-- The spawned closure of the notifier (lines 90-98): attempt to spawn the
primary command; on failure warn; on success, if a post command is configured,
attempt it too and warn on its failure. Nothing is awaited. -/
def notifierEvents (spawn : String → Bool) (command : String)
    (command_post : Option String) : List NotifyEv :=
  if spawn command = false then
    [NotifyEv.attempted command, NotifyEv.warned command]
  else
    match command_post with
    | some post =>
        if spawn post = false then
          [NotifyEv.attempted command, NotifyEv.attempted post, NotifyEv.warned post]
        else
          [NotifyEv.attempted command, NotifyEv.attempted post]
    | none => [NotifyEv.attempted command]

/-- Result of one successful `idle_loop` iteration: the notifier events that
occurred, how many times the notifier block ran, and the new high-water mark
(`last`). -/
structure IterOut where
  events : List NotifyEv
  notifyCount : Nat
  last : Nat
  deriving DecidableEq, Repr

/-- One iteration of `idle_loop` (lines 78-114) starting from high-water mark
`last`: collect the unioned uid set; if every uid is `> last` run the notifier
scope once (propagating a scope failure as an error); otherwise clear the set;
then set `last = max(last, uids.max().unwrap_or(0))` and block on
`idle()?.wait_keepalive()?`. -/
def idleIteration (env : IterEnv) (account : Account) (last : Nat) :
    Except IdleErr IterOut := do
  let uids ← (collectUids env account.boxes).mapError IdleErr.io
  if ∀ u ∈ uids, last < u then
    let events := notifierEvents env.spawn account.on_new_mail account.on_new_mail_post
    match env.scopeFail with
    | some e => throw (IdleErr.ctx e)
    | none =>
      let last := max last (maxOr0 uids)
      let _ ← env.idleWait.mapError IdleErr.io
      pure ⟨events, 1, last⟩
  else
    let uids : Finset Nat := ∅
    let last := max last (maxOr0 uids)
    let _ ← env.idleWait.mapError IdleErr.io
    pure ⟨[], 0, last⟩

/-- The successive high-water marks produced by running `idle_loop` iterations
(iteration `i` uses oracle `envs i`) until an iteration fails or `fuel` runs
out. -/
def idleLoopMarksFrom (envs : Nat → IterEnv) (account : Account) :
    Nat → Nat → Nat → List Nat
  | 0, _, _ => []
  | fuel + 1, i, last =>
    match idleIteration (envs i) account last with
    | .error _ => []
    | .ok out => out.last :: idleLoopMarksFrom envs account fuel (i + 1) out.last

/-- `idle_loop` starts with `let mut last = 0` (line 74). -/
def idleLoopMarks (envs : Nat → IterEnv) (account : Account) (fuel : Nat) : List Nat :=
  idleLoopMarksFrom envs account fuel 0 0

/-- An `imap::error::Error` as used in `Connection::new`: the `Bad` variant is
built explicitly on the missing-IDLE path (line 62); every other failure
reaching `new` is collapsed into `other`. -/
inductive ImapErr
  | bad (s : String)
  | other (msg : String)
  deriving DecidableEq, Repr

/-- Oracle for the session-establishment effects of `Connection::new`:
`TlsConnector::builder().build()`, `connect_insecure` + `secure` (STARTTLS
path), `connect` (implicit-TLS path), `login`, `capabilities`, `examine`. -/
structure Server where
  tlsBuild : Except ImapErr Unit
  connect_insecure : String → Nat → Except ImapErr Unit
  secure : String → Except ImapErr Unit
  connect : String → Nat → Except ImapErr Unit
  login : String → String → Except ImapErr String
  capabilities : String → Except ImapErr (List String)
  examine : String → Except ImapErr Unit

/-- `Result::is_ok` on the modelled `imap` results. -/
def exceptOk {α : Type} : Except ImapErr α → Bool
  | .ok _ => true
  | .error _ => false

/-- Outcome of `Connection::new`: a `Connection` (its account), an
`imap::error::Error`, or a Rust panic (which `new` cannot return as a value). -/
inductive EstabOutcome
  | ok (account : Account)
  | err (e : ImapErr)
  | panicked (msg : String)
  deriving DecidableEq, Repr

/-- The `client` construction of lines 52-56: on `starttls`,
`connect_insecure(..)?` then `.secure(..)?`; otherwise `connect(..)?`. -/
def connectStep (srv : Server) (account : Account) : Except ImapErr Unit :=
  if account.starttls then
    match srv.connect_insecure account.host account.port with
    | .error e => .error e
    | .ok _ => srv.secure account.host
  else
    srv.connect account.host account.port

/-- `Connection::new` (lines 48-71, with the stray `let tls = ...` of line 48
read as the first statement of `new`, where it must sit for the file to
compile): build the TLS connector, connect per the transport mode, log in with
trimmed username and password, fetch capabilities, require `"IDLE"` among them
(else return `Error::Bad` of the concatenated capability list), and `examine`
`boxes[0]` — an unguarded index that panics when `boxes` is empty. The
`login` oracle is keyed on the credential pair; `capabilities` on the session
it returned. -/
def Connection.new (srv : Server) (account : Account) : EstabOutcome :=
  match srv.tlsBuild with
  | .error e => .err e
  | .ok _ =>
    match connectStep srv account with
    | .error e => .err e
    | .ok _ =>
      match srv.login account.username.trim account.password.trim with
      | .error e => .err e
      | .ok sess =>
        match srv.capabilities sess with
        | .error e => .err e
        | .ok cap =>
          if ¬ cap.contains "IDLE" then .err (.bad (String.join cap))
          else
            match account.boxes[0]? with
            | none => .panicked "index out of bounds: the len is 0 but the index is 0"
            | some b =>
              match srv.examine b with
              | .error e => .err e
              | .ok _ => .ok account

/-- Observable actions of the bounded-retry loops (`run` lines 126-139 and the
per-account closure in `main` lines 201-213): an establishment attempt
(0-indexed) and a `thread::sleep` of the given number of seconds. -/
inductive RetryEv
  | attempt (k : Nat)
  | sleep (secs : Nat)
  deriving DecidableEq, Repr

/-- The body of the retry loop, `wait` doubling after each failure: attempt
`t`; on success stop; on failure sleep `wait` seconds and continue with
`wait * 2`, for at most `fuel` further attempts. `estab t` abstracts the
result of `Connection::new` on attempt `t`. -/
def retryGo (estab : Nat → Except ImapErr Account) :
    Nat → Nat → Nat → List RetryEv × Option Account
  | 0, _, _ => ([], none)
  | fuel + 1, t, wait =>
    match estab t with
    | .ok c => ([RetryEv.attempt t], some c)
    | .error _ =>
      let rest := retryGo estab fuel (t + 1) (wait * 2)
      (RetryEv.attempt t :: RetryEv.sleep wait :: rest.1, rest.2)

/-- `let mut wait = 1; for _try in 0..5 { ... }` — the bounded-retry loop
shared verbatim between `Connection::run` (reconnection, lines 126-139) and
`main` (initial establishment, lines 201-213). -/
def retryConnect (estab : Nat → Except ImapErr Account) : List RetryEv × Option Account :=
  retryGo estab 5 0 1

/-- Number of establishment attempts recorded in a retry trace. -/
def attemptsOf (tr : List RetryEv) : Nat :=
  (tr.filter fun e => match e with | .attempt _ => true | _ => false).length

/-- Helper for `delayBefore`: walk the trace accumulating sleep seconds since
the previous attempt; when the `k`-th attempt (1-indexed) is reached, return
the accumulated delay. -/
def delayBeforeAux (k : Nat) : List RetryEv → Nat → Nat → Nat
  | [], _, _ => 0
  | RetryEv.sleep s :: tr, seen, acc => delayBeforeAux k tr seen (acc + s)
  | RetryEv.attempt _ :: tr, seen, acc =>
    if seen + 1 = k then acc else delayBeforeAux k tr (seen + 1) 0

/-- The total sleep time occurring in the trace between attempt `k - 1` and
attempt `k` (1-indexed); 0 when the trace has fewer than `k` attempts. -/
def delayBefore (tr : List RetryEv) (k : Nat) : Nat := delayBeforeAux k tr 0 0

/-- Observable actions of one account's worker (`Connection::run`): the idle
loop of cycle `c` terminating with an error, the best-effort logout, the
reconnection attempts and sleeps, and a successful reconnection. -/
inductive WorkerEv
  | idleFailed (cycle : Nat) (e : IdleErr)
  | loggedOut (cycle : Nat)
  | attempted (cycle : Nat) (k : Nat)
  | slept (cycle : Nat) (secs : Nat)
  | reconnected (cycle : Nat)
  deriving DecidableEq, Repr

/-- How a worker's modelled execution ended: `dead` when `run` returned after
exhausting all 5 reconnection attempts (the thread stops normally), `fuelOut`
when the model's fuel ran out while the worker was still running. -/
inductive RunOutcome
  | dead
  | fuelOut
  deriving DecidableEq, Repr

/-- Tag a retry event with the reconnection cycle it belongs to. -/
def tagRetry (cycle : Nat) : RetryEv → WorkerEv
  | .attempt k => .attempted cycle k
  | .sleep s => .slept cycle s

/-- `Connection::run` (lines 117-140), one entry per reconnection cycle:
the inner `loop` runs `idle_loop` until it returns an error (`idle_loop`
never returns `Ok`: its own `loop` has no normal exit), logs it, does a
best-effort logout and breaks; then the retry loop attempts re-establishment
up to 5 times; on success `run` recurses on the fresh connection, after 5
failures `run` simply returns. `idleErrs c` is the error ending cycle `c`'s
idle phase; `estab c t` the result of re-establishment attempt `t` of cycle
`c`. -/
def runModel (idleErrs : Nat → IdleErr) (estab : Nat → Nat → Except ImapErr Account) :
    Nat → Nat → List WorkerEv × RunOutcome
  | 0, _ => ([], .fuelOut)
  | fuel + 1, cycle =>
    let pre := [WorkerEv.idleFailed cycle (idleErrs cycle), WorkerEv.loggedOut cycle]
    let r := retryConnect (estab cycle)
    match r.2 with
    | none => (pre ++ r.1.map (tagRetry cycle), .dead)
    | some _ =>
      let rest := runModel idleErrs estab fuel (cycle + 1)
      (pre ++ r.1.map (tagRetry cycle) ++ WorkerEv.reconnected cycle :: rest.1, rest.2)

/-- Per-account oracle for a worker thread: the idle-phase errors and the
re-establishment results of each cycle. -/
structure WorkerOracle where
  idleErrs : Nat → IdleErr
  estab : Nat → Nat → Except ImapErr Account

/-- The crossbeam scope of `main` (lines 220-226): one worker thread per
connection, each running `Connection::run` on its own oracle. -/
def workersModel (oracles : List WorkerOracle) (fuel : Nat) :
    List (List WorkerEv × RunOutcome) :=
  oracles.map fun o => runModel o.idleErrs o.estab fuel 0

/-- The fatal error of `main`: `bail!("could not establish any connections")`
(line 217). -/
inductive MainErr
  | noConnections
  deriving DecidableEq, Repr

/-- The connection set built by `main` (lines 200-214): for each account the
5-attempt retry loop, accounts whose attempts are all exhausted contribute
nothing (`filter_map` with `None`). -/
def initialConnections (accounts : List Account)
    (estab : Account → Nat → Except ImapErr Account) : List Account :=
  accounts.filterMap fun a => (retryConnect (estab a)).2

/-- `main` after configuration (lines 200-226): build the initial connection
set, bail out if it is empty, otherwise spawn one worker per surviving
connection (`workerOf` gives each connection its runtime oracle). -/
def mainModel (accounts : List Account)
    (estab : Account → Nat → Except ImapErr Account)
    (workerOf : Account → WorkerOracle) (fuel : Nat) :
    Except MainErr (List (List WorkerEv × RunOutcome)) :=
  let connections := initialConnections accounts estab
  if connections.isEmpty then .error .noConnections
  else .ok (workersModel (connections.map workerOf) fuel)

/-- Erase the error payload of an idle-phase failure event, keeping the
event's position and cycle. -/
def eraseIdleErr : WorkerEv → WorkerEv
  | .idleFailed c _ => .idleFailed c (IdleErr.io (IoErr.err ""))
  | e => e

/-! ### Concrete scenario fixtures -/

/-- A one-mailbox account (spec scenario A/B shape). -/
def acctA : Account :=
  { host := "mail.example.org", port := 143, starttls := true,
    username := "user", password := "secret",
    on_new_mail := "notmuch new", on_new_mail_post := some "afew --tag --new",
    boxes := ["INBOX"] }

/-- Scenario A oracle: the search finds uids 5, 6, 7 and every effect
succeeds. -/
def envA : IterEnv :=
  { examine := fun _ => .ok (), uid_search := fun _ => .ok [5, 6, 7],
    spawn := fun _ => true, scopeFail := none, idleWait := .ok () }

/-- Scenario B oracle: the search re-surfaces uid 3 alongside 5, 6, 7. -/
def envB : IterEnv := { envA with uid_search := fun _ => .ok [3, 5, 6, 7] }

/-- Execution-context hazard oracle: like scenario A, but the crossbeam scope
around the spawns fails with an unknown panic payload. -/
def envCtx : IterEnv := { envA with scopeFail := some ScopeErr.unknownPanic }

/-- Scenario D spawn oracle: launching any command fails (interpreter
missing). -/
def spawnFail : String → Bool := fun _ => false

/-- A healthy server whose capability list lacks IDLE (spec scenario C). -/
def srvNoIdle : Server :=
  { tlsBuild := .ok (), connect_insecure := fun _ _ => .ok (),
    secure := fun _ => .ok (), connect := fun _ _ => .ok (),
    login := fun _ _ => Except.ok "session", capabilities := fun _ => .ok ["IMAP4rev1"],
    examine := fun _ => .ok () }

/-- A fully healthy server that advertises IDLE. -/
def srvGood : Server :=
  { srvNoIdle with capabilities := fun _ => .ok ["IMAP4rev1", "IDLE"] }

/-- An account with an empty watched-mailbox list. -/
def acctNoBox : Account := { acctA with boxes := [] }

/-- An account on an unreachable host. -/
def acctDown : Account := { acctA with host := "down.example.org" }

/-- Initial-establishment oracle: the unreachable host always fails; any
other account connects on its first attempt. -/
def estabMix : Account → Nat → Except ImapErr Account := fun a _ =>
  if a.host = "down.example.org" then .error (ImapErr.other "connection refused")
  else .ok a

/-- Runtime worker oracle for spawned workers in the scenarios. -/
def workerIdle : Account → WorkerOracle := fun a =>
  { idleErrs := fun _ => IdleErr.io (IoErr.err "broken pipe"),
    estab := fun _ _ => estabMix a 0 }

/-! ### Helper lemmas -/

theorem maxOr0_empty : maxOr0 ∅ = 0 := rfl

theorem maxOr0_nonempty (s : Finset Nat) (h : s.Nonempty) : maxOr0 s = s.max' h := by
  unfold maxOr0
  rw [← Finset.coe_max' h]
  rfl

/-- Unfolding of one iteration when the all-new branch is taken and neither
the scope nor the keepalive wait fails. -/
theorem idleIteration_notify (env : IterEnv) (a : Account) (last : Nat) (U : Finset Nat)
    (hc : collectUids env a.boxes = .ok U)
    (hscope : env.scopeFail = none) (hwait : env.idleWait = .ok ())
    (hU : ∀ u ∈ U, last < u) :
    idleIteration env a last =
      .ok ⟨notifierEvents env.spawn a.on_new_mail a.on_new_mail_post, 1,
        max last (maxOr0 U)⟩ := by
  unfold idleIteration
  rw [hc]
  simp only [Except.mapError, bind, Except.bind]
  rw [if_pos hU, hscope, hwait]
  rfl

/-- Unfolding of one iteration when some uid is at or below the mark: the set
is cleared, no notifier events occur, and the mark is unchanged. -/
theorem idleIteration_discard (env : IterEnv) (a : Account) (last : Nat) (U : Finset Nat)
    (hc : collectUids env a.boxes = .ok U) (hwait : env.idleWait = .ok ())
    (hU : ¬ ∀ u ∈ U, last < u) :
    idleIteration env a last = .ok ⟨[], 0, last⟩ := by
  unfold idleIteration
  rw [hc]
  simp only [Except.mapError, bind, Except.bind]
  rw [if_neg hU, hwait]
  simp [maxOr0_empty, pure, Except.pure]

theorem idleIteration_mark_mono (env : IterEnv) (a : Account) (last : Nat) (out : IterOut)
    (h : idleIteration env a last = .ok out) : last ≤ out.last := by
  unfold idleIteration at h
  cases hc : collectUids env a.boxes with
  | error e => rw [hc] at h; simp [Except.mapError, bind, Except.bind] at h
  | ok uids =>
    rw [hc] at h
    simp only [Except.mapError, bind, Except.bind] at h
    split at h
    · cases hs : env.scopeFail with
      | some e => rw [hs] at h; simp [throw, throwThe, MonadExceptOf.throw] at h
      | none =>
        rw [hs] at h
        cases hw : env.idleWait with
        | error e => rw [hw] at h; simp at h
        | ok u =>
          rw [hw] at h
          simp only [pure, Except.pure, Except.ok.injEq] at h
          subst h
          exact Nat.le_max_left _ _
    · cases hw : env.idleWait with
      | error e => rw [hw] at h; simp at h
      | ok u =>
        rw [hw] at h
        simp only [pure, Except.pure, Except.ok.injEq] at h
        subst h
        simp [maxOr0_empty]

theorem idleLoopMarksFrom_chain (envs : Nat → IterEnv) (a : Account) :
    ∀ (fuel i last : Nat),
      List.Chain' (· ≤ ·) (last :: idleLoopMarksFrom envs a fuel i last) := by
  intro fuel
  induction fuel with
  | zero => intro i last; simp [idleLoopMarksFrom]
  | succ n ih =>
    intro i last
    unfold idleLoopMarksFrom
    cases h : idleIteration (envs i) a last with
    | error e => simp
    | ok out =>
      rw [List.chain'_cons]
      exact ⟨idleIteration_mark_mono _ _ _ _ h, ih (i + 1) out.last⟩

/-! ### Detection-loop claims -/

/-- C1: in any detection-loop iteration with mark `L` whose unioned uid set
`U` is empty or has every uid strictly above `L` (and whose surrounding
effects succeed), the notifier block runs exactly once and the new mark is
`max L (max U)` — `L` itself when `U` is empty. -/
theorem notify_on_all_new (env : IterEnv) (a : Account) (L : Nat) (U : Finset Nat)
    (hc : collectUids env a.boxes = .ok U)
    (hscope : env.scopeFail = none) (hwait : env.idleWait = .ok ())
    (hU : U = ∅ ∨ ∀ u ∈ U, L < u) :
    ∃ out, idleIteration env a L = .ok out ∧ out.notifyCount = 1 ∧
      ((U = ∅ → out.last = L) ∧ ∀ h : U.Nonempty, out.last = max L (U.max' h)) := by
  have hall : ∀ u ∈ U, L < u := by
    rcases hU with h | h
    · subst h; intro u hu; exact absurd hu (Finset.not_mem_empty u)
    · exact h
  refine ⟨_, idleIteration_notify env a L U hc hscope hwait hall, rfl, ?_, ?_⟩
  · intro h; subst h; simp [maxOr0_empty]
  · intro h; rw [maxOr0_nonempty U h]

/-- C2: in any detection-loop iteration with mark `L` whose unioned uid set
`U` contains a uid `≤ L` (and whose keepalive wait succeeds), the notifier
does not run and the mark stays exactly `L`: the set is discarded, not
merged. -/
theorem discard_on_seen_uid (env : IterEnv) (a : Account) (L : Nat) (U : Finset Nat)
    (hc : collectUids env a.boxes = .ok U) (hwait : env.idleWait = .ok ())
    (hU : ∃ u ∈ U, u ≤ L) :
    idleIteration env a L = .ok ⟨[], 0, L⟩ := by
  apply idleIteration_discard env a L U hc hwait
  intro hall
  obtain ⟨u, hu, hle⟩ := hU
  exact absurd hle (Nat.not_le.mpr (hall u hu))

/-- C10: over the lifetime of one connection's detection loop, the high-water
mark starts at 0 and is non-decreasing from each iteration to the next. -/
theorem mark_monotone (envs : Nat → IterEnv) (a : Account) (fuel : Nat) :
    List.Chain' (· ≤ ·) (0 :: idleLoopMarks envs a fuel) :=
  idleLoopMarksFrom_chain envs a fuel 0 0

/-! ### Notifier claims -/

/-- The spawn oracle influences only the notifier events of an iteration,
never whether the iteration succeeds, the notification count, or the new
mark. -/
theorem idleIteration_spawn_irrel (env : IterEnv) (a : Account) (L : Nat)
    (sp : String → Bool) :
    (idleIteration { env with spawn := sp } a L).map (fun o => (o.notifyCount, o.last)) =
      (idleIteration env a L).map (fun o => (o.notifyCount, o.last)) := by
  obtain ⟨ex, us, spn, scf, iw⟩ := env
  unfold idleIteration
  dsimp only
  cases hc : collectUids ⟨ex, us, spn, scf, iw⟩ a.boxes with
  | error e =>
    have hc2 : collectUids ⟨ex, us, sp, scf, iw⟩ a.boxes = .error e := hc
    rw [hc2]
    rfl
  | ok uids =>
    have hc2 : collectUids ⟨ex, us, sp, scf, iw⟩ a.boxes = .ok uids := hc
    rw [hc2]
    simp only [Except.mapError, bind, Except.bind]
    split
    · cases scf with
      | some e => rfl
      | none => cases iw with
        | error e => rfl
        | ok u => rfl
    · cases iw with
      | error e => rfl
      | ok u => rfl

/-- C8: the notifier always attempts to spawn the primary command; the post
command is attempted exactly when the primary spawn succeeded and a post
command is configured; a failed spawn adds only a warning event; and spawn
outcomes never change the iteration's success, notification count or mark
(so a launch failure neither ends the detection loop nor triggers
reconnection). -/
theorem notifier_contract (spawn : String → Bool) (cmd : String) (post : Option String) :
    (spawn cmd = false →
      notifierEvents spawn cmd post = [NotifyEv.attempted cmd, NotifyEv.warned cmd]) ∧
    (spawn cmd = true → post = none →
      notifierEvents spawn cmd post = [NotifyEv.attempted cmd]) ∧
    (∀ p, spawn cmd = true → post = some p → spawn p = true →
      notifierEvents spawn cmd post = [NotifyEv.attempted cmd, NotifyEv.attempted p]) ∧
    (∀ p, spawn cmd = true → post = some p → spawn p = false →
      notifierEvents spawn cmd post =
        [NotifyEv.attempted cmd, NotifyEv.attempted p, NotifyEv.warned p]) ∧
    (∀ (env : IterEnv) (a : Account) (L : Nat) (sp : String → Bool),
      (idleIteration { env with spawn := sp } a L).map (fun o => (o.notifyCount, o.last)) =
        (idleIteration env a L).map (fun o => (o.notifyCount, o.last))) := by
  refine ⟨?_, ?_, ?_, ?_, idleIteration_spawn_irrel⟩
  · intro h; simp [notifierEvents, h]
  · intro h hp; subst hp; simp [notifierEvents, h]
  · intro p h hp hpp; subst hp; simp [notifierEvents, h, hpp]
  · intro p h hp hpp; subst hp; simp [notifierEvents, h, hpp]

/-! ### Retry / backoff claims -/

/-- The retry trace depends only on which attempts succeed, not on the error
or connection values — all failure kinds are retried uniformly. -/
theorem retryGo_trace_uniform (estab1 estab2 : Nat → Except ImapErr Account)
    (h : ∀ t, exceptOk (estab1 t) = exceptOk (estab2 t)) :
    ∀ fuel t wait, (retryGo estab1 fuel t wait).1 = (retryGo estab2 fuel t wait).1 := by
  intro fuel
  induction fuel with
  | zero => intro t wait; rfl
  | succ n ih =>
    intro t wait
    unfold retryGo
    cases h1 : estab1 t with
    | ok c =>
      cases h2 : estab2 t with
      | ok c2 => rfl
      | error e2 =>
        exfalso
        have hh := h t
        rw [h1, h2] at hh
        simp [exceptOk] at hh
    | error e =>
      cases h2 : estab2 t with
      | ok c2 =>
        exfalso
        have hh := h t
        rw [h1, h2] at hh
        simp [exceptOk] at hh
      | error e2 => simp [ih]

/-- C3 (amended): the retry loop shared by `run` and `main` makes at most 5
establishment attempts; attempt 1 is immediate (no delay precedes it); for
k = 2..5 the delay before attempt k is 2^(k-2) seconds (1, 2, 4, 8); when all
5 attempts fail the trace additionally ends with a 16-second sleep after the
5th attempt, before the loop gives up; and the schedule treats all failure
kinds uniformly (the trace depends only on which attempts succeed). -/
theorem retry_schedule (estab : Nat → Except ImapErr Account) :
    attemptsOf (retryConnect estab).1 ≤ 5 ∧
    delayBefore (retryConnect estab).1 1 = 0 ∧
    (∀ k, 2 ≤ k → k ≤ attemptsOf (retryConnect estab).1 →
      delayBefore (retryConnect estab).1 k = 2 ^ (k - 2)) ∧
    ((∀ t, t < 5 → exceptOk (estab t) = false) →
      (retryConnect estab).1 =
        [RetryEv.attempt 0, RetryEv.sleep 1, RetryEv.attempt 1, RetryEv.sleep 2,
         RetryEv.attempt 2, RetryEv.sleep 4, RetryEv.attempt 3, RetryEv.sleep 8,
         RetryEv.attempt 4, RetryEv.sleep 16]) ∧
    (∀ estab2 : Nat → Except ImapErr Account,
      (∀ t, exceptOk (estab t) = exceptOk (estab2 t)) →
      (retryConnect estab).1 = (retryConnect estab2).1) := by
  have huni : ∀ estab2, (∀ t, exceptOk (estab t) = exceptOk (estab2 t)) →
      (retryConnect estab).1 = (retryConnect estab2).1 :=
    fun estab2 h => retryGo_trace_uniform estab estab2 h 5 0 1
  cases h0 : estab 0 with
  | ok c =>
    have htr : (retryConnect estab).1 = [RetryEv.attempt 0] := by
      simp [retryConnect, retryGo, h0]
    refine ⟨by rw [htr]; decide, by rw [htr]; decide, ?_, ?_, huni⟩
    · intro k hk2 hk5
      rw [htr] at hk5
      simp [attemptsOf] at hk5
      omega
    · intro hfail
      have := hfail 0 (by omega)
      rw [h0] at this
      simp [exceptOk] at this
  | error e0 =>
    cases h1 : estab 1 with
    | ok c =>
      have htr : (retryConnect estab).1 =
          [RetryEv.attempt 0, RetryEv.sleep 1, RetryEv.attempt 1] := by
        simp [retryConnect, retryGo, h0, h1]
      refine ⟨by rw [htr]; decide, by rw [htr]; decide, ?_, ?_, huni⟩
      · intro k hk2 hk5
        rw [htr] at hk5 ⊢
        simp [attemptsOf] at hk5
        interval_cases k
        decide
      · intro hfail
        have := hfail 1 (by omega)
        rw [h1] at this
        simp [exceptOk] at this
    | error e1 =>
      cases h2 : estab 2 with
      | ok c =>
        have htr : (retryConnect estab).1 =
            [RetryEv.attempt 0, RetryEv.sleep 1, RetryEv.attempt 1, RetryEv.sleep 2,
             RetryEv.attempt 2] := by
          simp [retryConnect, retryGo, h0, h1, h2]
        refine ⟨by rw [htr]; decide, by rw [htr]; decide, ?_, ?_, huni⟩
        · intro k hk2 hk5
          rw [htr] at hk5 ⊢
          simp [attemptsOf] at hk5
          interval_cases k <;> decide
        · intro hfail
          have := hfail 2 (by omega)
          rw [h2] at this
          simp [exceptOk] at this
      | error e2 =>
        cases h3 : estab 3 with
        | ok c =>
          have htr : (retryConnect estab).1 =
              [RetryEv.attempt 0, RetryEv.sleep 1, RetryEv.attempt 1, RetryEv.sleep 2,
               RetryEv.attempt 2, RetryEv.sleep 4, RetryEv.attempt 3] := by
            simp [retryConnect, retryGo, h0, h1, h2, h3]
          refine ⟨by rw [htr]; decide, by rw [htr]; decide, ?_, ?_, huni⟩
          · intro k hk2 hk5
            rw [htr] at hk5 ⊢
            simp [attemptsOf] at hk5
            interval_cases k <;> decide
          · intro hfail
            have := hfail 3 (by omega)
            rw [h3] at this
            simp [exceptOk] at this
        | error e3 =>
          cases h4 : estab 4 with
          | ok c =>
            have htr : (retryConnect estab).1 =
                [RetryEv.attempt 0, RetryEv.sleep 1, RetryEv.attempt 1, RetryEv.sleep 2,
                 RetryEv.attempt 2, RetryEv.sleep 4, RetryEv.attempt 3, RetryEv.sleep 8,
                 RetryEv.attempt 4] := by
              simp [retryConnect, retryGo, h0, h1, h2, h3, h4]
            refine ⟨by rw [htr]; decide, by rw [htr]; decide, ?_, ?_, huni⟩
            · intro k hk2 hk5
              rw [htr] at hk5 ⊢
              simp [attemptsOf] at hk5
              interval_cases k <;> decide
            · intro hfail
              have := hfail 4 (by omega)
              rw [h4] at this
              simp [exceptOk] at this
          | error e4 =>
            have htr : (retryConnect estab).1 =
                [RetryEv.attempt 0, RetryEv.sleep 1, RetryEv.attempt 1, RetryEv.sleep 2,
                 RetryEv.attempt 2, RetryEv.sleep 4, RetryEv.attempt 3, RetryEv.sleep 8,
                 RetryEv.attempt 4, RetryEv.sleep 16] := by
              simp [retryConnect, retryGo, h0, h1, h2, h3, h4]
            refine ⟨by rw [htr]; decide, by rw [htr]; decide, ?_, fun _ => htr, huni⟩
            intro k hk2 hk5
            rw [htr] at hk5 ⊢
            simp [attemptsOf] at hk5
            interval_cases k <;> decide

/-- When all five attempts fail, the retry loop returns no connection and its
trace is the full failure schedule. -/
theorem retryConnect_all_fail (estab : Nat → Except ImapErr Account)
    (h : ∀ t, t < 5 → ∃ e, estab t = .error e) :
    retryConnect estab =
      ([RetryEv.attempt 0, RetryEv.sleep 1, RetryEv.attempt 1, RetryEv.sleep 2,
        RetryEv.attempt 2, RetryEv.sleep 4, RetryEv.attempt 3, RetryEv.sleep 8,
        RetryEv.attempt 4, RetryEv.sleep 16], none) := by
  obtain ⟨e0, h0⟩ := h 0 (by omega)
  obtain ⟨e1, h1⟩ := h 1 (by omega)
  obtain ⟨e2, h2⟩ := h 2 (by omega)
  obtain ⟨e3, h3⟩ := h 3 (by omega)
  obtain ⟨e4, h4⟩ := h 4 (by omega)
  simp [retryConnect, retryGo, h0, h1, h2, h3, h4]

/-- C7: once every one of the 5 re-establishment attempts of a cycle fails,
the worker's whole remaining behavior is the failed idle phase, the logout,
and exactly those 5 attempts with their sleeps; the outcome is `dead` — `run`
returns normally, so whatever fuel remains, no further establishment attempt
or detection cycle happens and the process does not receive an error. In the
multi-worker model each worker's entry depends only on its own oracle, so the
other accounts' workers are unaffected. -/
theorem dead_after_five_failures (idleErrs : Nat → IdleErr)
    (estab : Nat → Nat → Except ImapErr Account) (fuel c : Nat)
    (h : ∀ t, t < 5 → exceptOk (estab c t) = false) :
    runModel idleErrs estab (fuel + 1) c =
      ([WorkerEv.idleFailed c (idleErrs c), WorkerEv.loggedOut c,
        WorkerEv.attempted c 0, WorkerEv.slept c 1, WorkerEv.attempted c 1,
        WorkerEv.slept c 2, WorkerEv.attempted c 2, WorkerEv.slept c 4,
        WorkerEv.attempted c 3, WorkerEv.slept c 8, WorkerEv.attempted c 4,
        WorkerEv.slept c 16], RunOutcome.dead) ∧
    (∀ (os1 os2 : List WorkerOracle) (j fl : Nat), os1[j]? = os2[j]? →
      (workersModel os1 fl)[j]? = (workersModel os2 fl)[j]?) := by
  constructor
  · have herr : ∀ t, t < 5 → ∃ e, estab c t = .error e := by
      intro t ht
      have := h t ht
      cases he : estab c t with
      | ok cc => rw [he] at this; simp [exceptOk] at this
      | error e => exact ⟨e, rfl⟩
    have := retryConnect_all_fail (estab c) herr
    simp [runModel, this, tagRetry]
  · intro os1 os2 j fl hj
    simp only [workersModel, List.getElem?_map, hj]

/-! ### Establishment claims -/

/-- C5: establishment is atomic — a returned `Connection` certifies that the
TLS builder, transport negotiation, login with trimmed credentials,
capability query (containing `"IDLE"`), and the read-only selection of the
first watched mailbox all succeeded, so any step's failure means no
`Connection` is returned; and when the capability list lacks `"IDLE"`,
establishment fails with the distinct `Bad` capability error regardless of
the `examine` oracle. -/
theorem establish_atomic (srv : Server) (a : Account) :
    (∀ c, Connection.new srv a = .ok c →
      exceptOk srv.tlsBuild = true ∧ exceptOk (connectStep srv a) = true ∧
      (∃ sess, srv.login a.username.trim a.password.trim = .ok sess ∧
        ∃ cap, srv.capabilities sess = .ok cap ∧ cap.contains "IDLE" = true ∧
          ∃ b, a.boxes[0]? = some b ∧ exceptOk (srv.examine b) = true)) ∧
    (∀ sess cap, srv.tlsBuild = .ok () → exceptOk (connectStep srv a) = true →
      srv.login a.username.trim a.password.trim = .ok sess →
      srv.capabilities sess = .ok cap → cap.contains "IDLE" = false →
      Connection.new srv a = .err (.bad (String.join cap))) := by
  constructor
  · intro c h
    unfold Connection.new at h
    split at h
    · exact absurd h (by simp)
    rename_i u htls
    split at h
    · exact absurd h (by simp)
    rename_i u2 hcs
    split at h
    · exact absurd h (by simp)
    rename_i sess hl
    split at h
    · exact absurd h (by simp)
    rename_i cap hcap
    split at h
    · exact absurd h (by simp)
    rename_i hidle
    split at h
    · exact absurd h (by simp)
    rename_i b hb
    split at h
    · exact absurd h (by simp)
    rename_i u3 he
    refine ⟨by rw [htls]; rfl, by rw [hcs]; rfl, sess, hl, cap, hcap, ?_,
      b, hb, by rw [he]; rfl⟩
    simpa using hidle
  · intro sess cap htls hcs hl hcap hidle
    cases hcs2 : connectStep srv a with
    | error e => rw [hcs2] at hcs; simp [exceptOk] at hcs
    | ok u =>
      cases u
      have hidle2 : "IDLE" ∉ cap := by simpa using hidle
      simp [Connection.new, htls, hcs2, hl, hcap, hidle2]

/-- C9: `Connection::new` examines `boxes[0]` without any bounds check, so
when an account's mailbox list is empty and the preceding establishment steps
succeed, the function panics with an out-of-bounds index instead of returning
an error value; conversely, with at least one watched mailbox, no execution of
`Connection::new` panics. -/
theorem empty_boxes_panic (srv : Server) (a : Account) :
    (a.boxes = [] → srv.tlsBuild = .ok () → exceptOk (connectStep srv a) = true →
      (∃ sess, srv.login a.username.trim a.password.trim = .ok sess ∧
        ∃ cap, srv.capabilities sess = .ok cap ∧ cap.contains "IDLE" = true) →
      Connection.new srv a =
        .panicked "index out of bounds: the len is 0 but the index is 0") ∧
    (a.boxes ≠ [] → ∀ m, Connection.new srv a ≠ .panicked m) := by
  constructor
  · intro hb htls hcs hrest
    obtain ⟨sess, hl, cap, hcap, hidle⟩ := hrest
    cases hcs2 : connectStep srv a with
    | error e => rw [hcs2] at hcs; simp [exceptOk] at hcs
    | ok u =>
      cases u
      have hidle2 : "IDLE" ∈ cap := by simpa using hidle
      simp [Connection.new, htls, hcs2, hl, hcap, hidle2, hb]
  · intro hne m
    cases htls : srv.tlsBuild with
    | error e => simp [Connection.new, htls]
    | ok u =>
      cases u
      cases hcs : connectStep srv a with
      | error e => simp [Connection.new, htls, hcs]
      | ok u =>
        cases u
        cases hl : srv.login a.username.trim a.password.trim with
        | error e => simp [Connection.new, htls, hcs, hl]
        | ok sess =>
          cases hcap : srv.capabilities sess with
          | error e => simp [Connection.new, htls, hcs, hl, hcap]
          | ok cap =>
            by_cases hidle : cap.contains "IDLE" = true
            · have hidle2 : "IDLE" ∈ cap := by simpa using hidle
              cases hb : a.boxes with
              | nil => exact absurd hb hne
              | cons b bs =>
                cases he : srv.examine b with
                | error e =>
                  simp [Connection.new, htls, hcs, hl, hcap, hidle2, hb, he]
                | ok u =>
                  simp [Connection.new, htls, hcs, hl, hcap, hidle2, hb, he]
            · have hidle2 : "IDLE" ∉ cap := by simpa using hidle
              simp [Connection.new, htls, hcs, hl, hcap, hidle2]

/-! ### Orchestrator claims -/

/-- C6: in `main`, an account whose 5 initial-establishment attempts are all
exhausted contributes nothing to the connection set (dropping it from the
account list leaves the set unchanged); the program fails with the fatal
`could not establish any connections` error exactly when the resulting set is
empty; and otherwise one worker is spawned per surviving connection, in
order, each running `Connection::run` for its own connection. -/
theorem orchestrator_contract (accounts : List Account)
    (estab : Account → Nat → Except ImapErr Account)
    (workerOf : Account → WorkerOracle) (fuel : Nat) :
    (∀ (pre post : List Account) (a : Account), (retryConnect (estab a)).2 = none →
      initialConnections (pre ++ a :: post) estab = initialConnections (pre ++ post) estab) ∧
    (mainModel accounts estab workerOf fuel = .error .noConnections ↔
      initialConnections accounts estab = []) ∧
    (∀ ws, mainModel accounts estab workerOf fuel = .ok ws →
      ws.length = (initialConnections accounts estab).length ∧
      ∀ j : Nat, ws[j]? = ((initialConnections accounts estab)[j]?).map fun c =>
        runModel (workerOf c).idleErrs (workerOf c).estab fuel 0) := by
  refine ⟨?_, ?_, ?_⟩
  · intro pre post a h
    simp [initialConnections, List.filterMap_append, List.filterMap_cons, h]
  · unfold mainModel
    by_cases h : (initialConnections accounts estab).isEmpty
    · simp [h, List.isEmpty_iff.mp h]
    · rw [if_neg h]
      simp [List.isEmpty_iff] at h
      simp [h]
  · intro ws h
    unfold mainModel at h
    by_cases hemp : (initialConnections accounts estab).isEmpty
    · rw [if_pos hemp] at h; exact absurd h (by simp)
    · rw [if_neg hemp] at h
      simp only [Except.ok.injEq] at h
      subst h
      constructor
      · simp [workersModel]
      · intro j
        simp only [workersModel, List.getElem?_map]
        cases (initialConnections accounts estab)[j]? with
        | none => rfl
        | some c => rfl

/-! ### Execution-context failure claims -/

theorem eraseIdleErr_tagRetry (c : Nat) (e : RetryEv) :
    eraseIdleErr (tagRetry c e) = tagRetry c e := by
  cases e <;> rfl

/-- C4 (amended): an unexpected failure of the command-spawn scope propagates
out of the detection loop as the error terminating it, but `Connection::run`
handles it exactly like any other detection-loop error — logout followed by
the standard reconnection schedule — so it is not fatal to the process: the
worker's subsequent trace and outcome are identical whatever kind of error
(I/O or execution-context) ended each idle phase. -/
theorem ctx_failure_reconnects (env : IterEnv) (a : Account) (L : Nat) (e : ScopeErr)
    (U : Finset Nat) (hc : collectUids env a.boxes = .ok U)
    (hU : ∀ u ∈ U, L < u) (hs : env.scopeFail = some e) :
    idleIteration env a L = .error (IdleErr.ctx e) ∧
    ∀ (e1 e2 : Nat → IdleErr) (estab : Nat → Nat → Except ImapErr Account) (fuel c : Nat),
      (runModel e1 estab fuel c).1.map eraseIdleErr =
        (runModel e2 estab fuel c).1.map eraseIdleErr ∧
      (runModel e1 estab fuel c).2 = (runModel e2 estab fuel c).2 := by
  constructor
  · unfold idleIteration
    rw [hc]
    simp only [Except.mapError, bind, Except.bind]
    rw [if_pos hU, hs]
    rfl
  · intro e1 e2 estab fuel
    induction fuel with
    | zero => intro c; exact ⟨rfl, rfl⟩
    | succ n ih =>
      intro c
      unfold runModel
      cases hr : (retryConnect (estab c)).2 with
      | none =>
        simp [hr, List.map_append, List.map_map, Function.comp, eraseIdleErr,
          eraseIdleErr_tagRetry]
      | some cc =>
        have := ih (c + 1)
        simp [hr, List.map_append, List.map_map, Function.comp, eraseIdleErr,
          eraseIdleErr_tagRetry, this.1, this.2]

/-! ### Witnesses and counterexamples at concrete inputs -/

/-- Witness for C1 at scenario A: mark 0, search returns {5, 6, 7}; the
notifier fires once and the new mark is 7. -/
theorem notify_on_all_new_witness :
    ∃ out, idleIteration envA acctA 0 = .ok out ∧ out.notifyCount = 1 ∧
      ((({5, 6, 7} : Finset Nat) = ∅ → out.last = 0) ∧
        ∀ h : ({5, 6, 7} : Finset Nat).Nonempty,
          out.last = max 0 (Finset.max' {5, 6, 7} h)) :=
  notify_on_all_new envA acctA 0 {5, 6, 7} (by decide) rfl rfl (Or.inr (by decide))

/-- Witness for C2 at scenario B: mark 7, search returns {3, 5, 6, 7}; the
notifier does not fire and the mark stays 7. -/
theorem discard_on_seen_uid_witness :
    idleIteration envB acctA 7 = .ok ⟨[], 0, 7⟩ :=
  discard_on_seen_uid envB acctA 7 {3, 5, 6, 7} (by decide) rfl (by decide)

/-- Witness for C8 at scenario D: with spawning broken, the notifier attempts
the primary command and logs one warning; the post command is not attempted. -/
theorem notifier_contract_witness :
    notifierEvents spawnFail "notmuch new" (some "afew --tag --new") =
      [NotifyEv.attempted "notmuch new", NotifyEv.warned "notmuch new"] :=
  (notifier_contract spawnFail "notmuch new" (some "afew --tag --new")).1 rfl

/-- C3 counterexample: with every attempt failing, the delay before the first
establishment attempt is 0 seconds — the claimed 2^(1-1) = 1 second delay
before attempt 1 does not happen, because the code sleeps only after a failed
attempt. -/
theorem retry_schedule_counterexample :
    delayBefore (retryConnect fun _ => .error (ImapErr.other "connection refused")).1 1 = 0 ∧
    delayBefore (retryConnect fun _ => .error (ImapErr.other "connection refused")).1 1 ≠
      2 ^ (1 - 1) := by
  decide

/-- Witness for C3 (amended), all five attempts failing: the full trace shows
no delay before attempt 1, delays 1, 2, 4, 8 before attempts 2-5, and the
final 16-second sleep after the 5th failure. -/
theorem retry_schedule_witness :
    (retryConnect fun _ => .error (ImapErr.other "no route to host")).1 =
      [RetryEv.attempt 0, RetryEv.sleep 1, RetryEv.attempt 1, RetryEv.sleep 2,
       RetryEv.attempt 2, RetryEv.sleep 4, RetryEv.attempt 3, RetryEv.sleep 8,
       RetryEv.attempt 4, RetryEv.sleep 16] :=
  (retry_schedule fun _ => .error (ImapErr.other "no route to host")).2.2.2.1
    fun _ _ => rfl

/-- Witness for C7: a worker whose idle loop broke and whose five
re-establishment attempts all fail ends dead with exactly that trace. -/
theorem dead_after_five_failures_witness :
    runModel (fun _ => IdleErr.io (IoErr.err "broken pipe"))
        (fun _ _ => .error (ImapErr.other "connection refused")) 1 0 =
      ([WorkerEv.idleFailed 0 (IdleErr.io (IoErr.err "broken pipe")),
        WorkerEv.loggedOut 0, WorkerEv.attempted 0 0, WorkerEv.slept 0 1,
        WorkerEv.attempted 0 1, WorkerEv.slept 0 2, WorkerEv.attempted 0 2,
        WorkerEv.slept 0 4, WorkerEv.attempted 0 3, WorkerEv.slept 0 8,
        WorkerEv.attempted 0 4, WorkerEv.slept 0 16], RunOutcome.dead) :=
  (dead_after_five_failures (fun _ => IdleErr.io (IoErr.err "broken pipe"))
    (fun _ _ => .error (ImapErr.other "connection refused")) 0 0 fun _ _ => rfl).1

/-- Witness for C5 at scenario C: a server lacking IDLE makes establishment
fail with the distinct `Bad` capability error. -/
theorem establish_atomic_witness :
    Connection.new srvNoIdle acctA = .err (.bad (String.join ["IMAP4rev1"])) :=
  (establish_atomic srvNoIdle acctA).2 "session" ["IMAP4rev1"] rfl rfl rfl rfl
    (by decide)

/-- Witness for C9: on a healthy IDLE-capable server, an account with no
watched mailboxes makes establishment panic. -/
theorem empty_boxes_panic_witness :
    Connection.new srvGood acctNoBox =
      .panicked "index out of bounds: the len is 0 but the index is 0" :=
  (empty_boxes_panic srvGood acctNoBox).1 rfl rfl rfl
    ⟨"session", rfl, ["IMAP4rev1", "IDLE"], rfl, by decide⟩

/-- Witness for C6: an account whose five initial attempts all fail (the
unreachable host) contributes nothing to the connection set. -/
theorem orchestrator_contract_witness :
    initialConnections ([acctA] ++ acctDown :: []) estabMix =
      initialConnections ([acctA] ++ []) estabMix :=
  (orchestrator_contract [acctA] estabMix workerIdle 1).1 [acctA] [] acctDown
    (by decide)

/-- Witness for C4 (amended): at scenario A with the scope failing, the
iteration surfaces the execution-context error out of the detection loop. -/
theorem ctx_failure_reconnects_witness :
    idleIteration envCtx acctA 0 = .error (IdleErr.ctx ScopeErr.unknownPanic) :=
  (ctx_failure_reconnects envCtx acctA 0 ScopeErr.unknownPanic {5, 6, 7}
    (by decide) (by decide) rfl).1

/-- C4 counterexample: an execution-context failure ends the idle loop, but
with re-establishment available the worker logs out, reconnects (the trace
contains `reconnected 0`) and is still running when the model's fuel ends —
the process does not terminate, contradicting the claim that such a failure
is fatal to the entire process. -/
theorem ctx_failure_counterexample :
    idleIteration envCtx acctA 0 = .error (IdleErr.ctx ScopeErr.unknownPanic) ∧
    WorkerEv.reconnected 0 ∈
      (runModel (fun _ => IdleErr.ctx ScopeErr.unknownPanic)
        (fun _ _ => .ok acctA) 2 0).1 ∧
    (runModel (fun _ => IdleErr.ctx ScopeErr.unknownPanic)
        (fun _ _ => .ok acctA) 2 0).2 = RunOutcome.fuelOut := by
  refine ⟨by decide, by decide, by decide⟩

end ImapNotify
